import Mathlib

/-!
Shallow embedding of the ai-text-to-3d-pipeline repository.

The embedding translates the three core modules:
* `app/core/llm/ollama_llama.py`      (OllamaLlama)
* `app/core/pipeline/generator.py`    (CreativePipeline)
* `app/core/memory/memory_manager.py` (MemoryManager)

External effects (HTTP transport, the Openfabric stub calls, the uuid
stream, the sqlite insert outcome and the wall clock) are supplied by
explicit environment records; Python byte strings are `List Nat`,
Python dicts that cross a claim boundary are association lists, and a
Python local variable that may be read before assignment is an
`Option` of its value (with `none` standing for "unbound", which reads
as an UnboundLocalError).  Case folding models Python / SQLite ASCII
folding via `Char.toLower` (non-ASCII code points fold to themselves,
as in core Lean).
-/

/-- Python bytes values: a list of byte-sized naturals.  Only emptiness
is ever observed by the translated code. -/
abbrev Bytes := List Nat

/-- A JSON-ish response dict mapping string keys to byte strings, as
returned by the Openfabric stub calls. -/
abbrev ORsp := List (String × Bytes)

/-- Python `d.get(k)` / `d.get(k, None)` on a response dict. -/
def dget (d : ORsp) (k : String) : Option Bytes :=
  match d.find? (fun p => p.1 == k) with
  | some p => some p.2
  | none => none

/-- Python `d[k]` on a response dict: a missing key raises `KeyError`. -/
def dsub (d : ORsp) (k : String) : Except String Bytes :=
  match dget d k with
  | some v => Except.ok v
  | none => Except.error ("KeyError: " ++ k)

/-- Truthiness of a Python string: empty strings are falsy. -/
def pyTruthyStr (s : String) : Bool := !(s == "")

/-- Truthiness of an optional Python string (`None` and `""` are falsy). -/
def pyTruthyOptStr : Option String → Bool
  | none => false
  | some s => pyTruthyStr s

/-- Whitespace characters recognized by Python `str.split()` with no
arguments. -/
def pyIsSpace (c : Char) : Bool :=
  c == ' ' || c == '\t' || c == '\n' || c == '\r' || c == '\x0b' || c == '\x0c'

/-- Accumulator pass of Python `str.split()`: splits on runs of
whitespace and drops empty pieces.  `acc` holds the current word in
reverse. -/
def pyWordsAux : List Char → List Char → List (List Char)
  | [], acc => if acc.isEmpty then [] else [acc.reverse]
  | c :: cs, acc =>
    if pyIsSpace c then
      if acc.isEmpty then pyWordsAux cs [] else acc.reverse :: pyWordsAux cs []
    else
      pyWordsAux cs (c :: acc)

/-- Python `s.split()` on the character list of a string. -/
def pyWords (l : List Char) : List (List Char) := pyWordsAux l []

/-- Python `sep.join(l)`. -/
def pyJoin (sep : String) : List String → String
  | [] => ""
  | [x] => x
  | x :: y :: xs => x ++ sep ++ pyJoin sep (y :: xs)

/-- Character-level splitter behind Python `s.split(",")` (keeps empty
pieces; splitting the empty string yields one empty piece). -/
def splitCommaChars : List Char → List (List Char)
  | [] => [[]]
  | c :: cs =>
    let r := splitCommaChars cs
    if c = ',' then [] :: r
    else
      match r with
      | [] => [[c]]
      | h :: t => (c :: h) :: t

/-- Python `s.split(",")`. -/
def pySplitComma (s : String) : List String :=
  (splitCommaChars s.data).map String.mk

/-- Values that can sit in the dictionaries the pipeline returns and in
the session cache. -/
inductive PVal where
  | vnone
  | vstr (s : String)
  | vint (n : Int)
  | vlist (xs : List String)
deriving DecidableEq, Repr

/-- A Python optional string as a dict value (`None` for absent paths). -/
def optStrVal : Option String → PVal
  | none => PVal.vnone
  | some s => PVal.vstr s

/-- Python `d.get(k)` on a string-keyed dict of `PVal`s. -/
def pget (d : List (String × PVal)) (k : String) : Option PVal :=
  match d.find? (fun p => p.1 == k) with
  | some p => some p.2
  | none => none

/-- Outcome of `requests.post` against the text-generation backend:
HTTP status plus the `response` field of the JSON body when present. -/
structure HttpResp where
  status : Nat
  jsonResponse : Option String
deriving DecidableEq, Repr

/-- Environment of one `enhance_prompt` call: the transport outcome
(`Except.error` models a raised transport exception such as
`ConnectionError`) and the three `random.choice` draws used by the
fallback. -/
structure LlmEnv where
  post : Except String HttpResp
  styleIdx : Fin 4
  lightIdx : Fin 4
  detailIdx : Fin 4

/-- `art_styles` of `_create_enhanced_prompt_fallback`. -/
def art_styles : List String :=
  ["cinematic", "fantasy art", "photorealistic", "digital painting"]

/-- `lighting` of `_create_enhanced_prompt_fallback`. -/
def lighting_opts : List String :=
  ["dramatic lighting", "golden hour sunlight", "soft ambient light", "moody shadows"]

/-- `details` of `_create_enhanced_prompt_fallback`. -/
def detail_opts : List String :=
  ["intricate details", "high resolution", "textured surfaces", "vibrant colors"]

/-- `OllamaLlama._create_enhanced_prompt_fallback`: one style, one
lighting descriptor and one detail descriptor picked by the random
draws, comma-joined with the original prompt. -/
def create_enhanced_prompt_fallback (env : LlmEnv) (basic_prompt : String) : String :=
  let style := art_styles.getD env.styleIdx.val ""
  let light := lighting_opts.getD env.lightIdx.val ""
  let detail := detail_opts.getD env.detailIdx.val ""
  basic_prompt ++ ", " ++ style ++ ", " ++ light ++ ", " ++ detail ++
    ", masterfully crafted, 8k resolution"

/-- `OllamaLlama.enhance_prompt` (containerized endpoint).  A transport
failure propagates (there is no try/except around `requests.post`); a
200 response returns its `response` field (a missing field raises
`KeyError`); any other status falls back to the local enhancement. -/
def enhance_prompt (env : LlmEnv) (user_prompt : String) : Except String String :=
  match env.post with
  | Except.error e => Except.error e
  | Except.ok resp =>
    if resp.status == 200 then
      match resp.jsonResponse with
      | some t => Except.ok t
      | none => Except.error "KeyError: response"
    else
      Except.ok (create_enhanced_prompt_fallback env user_prompt)

/-- `OllamaLlama.enhance_prompt_local` (localhost endpoint).  The body
is the same as `enhance_prompt` apart from the URL, which lives in the
environment. -/
def enhance_prompt_local (env : LlmEnv) (user_prompt : String) : Except String String :=
  match env.post with
  | Except.error e => Except.error e
  | Except.ok resp =>
    if resp.status == 200 then
      match resp.jsonResponse with
      | some t => Except.ok t
      | none => Except.error "KeyError: response"
    else
      Except.ok (create_enhanced_prompt_fallback env user_prompt)

/-- The stopword set of `_extract_tags`. -/
def stopwords : List String :=
  ["a", "the", "and", "of", "for", "with", "in", "on", "at"]

/-- `CreativePipeline._extract_tags`: lower-case the prompt, replace
commas by spaces, split on whitespace, keep words longer than three
characters that are not stopwords, deduplicate (`list(set(tags))`,
modelled by `List.dedup`) and keep at most ten. -/
def extract_tags (prompt : String) : List String :=
  let cleaned := (prompt.data.map Char.toLower).map (fun c => if c = ',' then ' ' else c)
  let words := (pyWords cleaned).map String.mk
  let tags := words.filter (fun w => 3 < w.length && !(stopwords.contains w))
  tags.dedup.take 10

/-- One row of the `creations` sqlite table.  `video_path` is a column
of the schema but the insert in `save_creation` never sets it, so it is
always `none` for rows written by this code. -/
structure Row where
  id : Nat
  creation_date : String
  prompt : String
  enhanced_prompt : String
  image_path : Option String
  model_path : Option String
  video_path : Option String
  tags : String
  user_id : String
deriving DecidableEq, Repr

/-- The sqlite side of `MemoryManager`: the `creations` table plus the
autoincrement counter. -/
structure MemDB where
  rows : List Row
  nextId : Nat
deriving DecidableEq, Repr

/-- A `MemoryManager` instance: long-term table plus the short-term
session dict, the latter stored newest-binding-first. -/
structure Mem where
  db : MemDB
  shortTerm : List (String × PVal)
deriving DecidableEq, Repr

/-- A fresh `MemoryManager` over an empty database. -/
def initMem : Mem := { db := { rows := [], nextId := 1 }, shortTerm := [] }

/-- The `",".join(tags) if tags else ""` encoding used by
`save_creation` for the `tags` column. -/
def tagsStr (tags : List String) : String :=
  if tags.isEmpty then "" else pyJoin "," tags

/-- `MemoryManager.save_creation` (its source signature:
`(prompt, enhanced_prompt, image_path, model_path, tags, user_id)`,
with no video parameter).  The insert outcome is supplied by
`insertOk`; on a sqlite error the except handler returns `-1` and
writes nothing. -/
def save_creation (m : Mem) (insertOk : Bool) (now : String)
    (prompt enhanced_prompt : String) (image_path model_path : Option String)
    (tags : List String) (user_id : String) : Int × Mem :=
  if insertOk then
    let row : Row :=
      { id := m.db.nextId, creation_date := now, prompt := prompt,
        enhanced_prompt := enhanced_prompt, image_path := image_path,
        model_path := model_path, video_path := none,
        tags := tagsStr tags, user_id := user_id }
    (Int.ofNat m.db.nextId,
      { m with db := { rows := m.db.rows ++ [row], nextId := m.db.nextId + 1 } })
  else
    ((-1 : Int), m)

/-- `MemoryManager.save_to_short_term`: dict assignment, modelled by
prepending the newest binding (lookups take the first hit). -/
def save_to_short_term (m : Mem) (k : String) (v : PVal) : Mem :=
  { m with shortTerm := (k, v) :: m.shortTerm }

/-- `MemoryManager.get_from_short_term`. -/
def get_from_short_term (m : Mem) (k : String) : Option PVal :=
  match m.shortTerm.find? (fun p => p.1 == k) with
  | some p => some p.2
  | none => none

/-- SQLite `LIKE` matching over character lists (structural on the
pattern): `%` matches any sequence, `_` any single character, and plain
characters compare after ASCII case folding (the default `LIKE` is
case-insensitive for ASCII). -/
def likeMatch : List Char → List Char → Bool
  | [], ts => ts.isEmpty
  | p :: ps, ts =>
    if p = '%' then ts.tails.any (fun sfx => likeMatch ps sfx)
    else if p = '_' then
      match ts with
      | [] => false
      | _ :: ts2 => likeMatch ps ts2
    else
      match ts with
      | [] => false
      | t :: ts2 => (p.toLower == t.toLower) && likeMatch ps ts2

/-- The `LIKE ?` test with parameter `f"%{pat}%"`, as built by
`search_creations`. -/
def likeContains (pat text : String) : Bool :=
  likeMatch ('%' :: (pat.data ++ ['%'])) text.data

/-- `MemoryManager.search_creations`: rows whose prompt, enhanced
prompt or tags column `LIKE`-matches `%term%`, filtered by `user_id`
only when that argument is truthy. -/
def search_creations (m : Mem) (search_term : String) (user_id : Option String) : List Row :=
  m.db.rows.filter (fun r =>
    (likeContains search_term r.prompt
      || likeContains search_term r.enhanced_prompt
      || likeContains search_term r.tags)
    &&
    (match user_id with
     | some u => if u == "" then true else r.user_id == u
     | none => true))

/-- The artifact store: files written so far, as path/content pairs. -/
abbrev FS := List (String × Bytes)

/-- Environment of one `process` invocation: the container-detection
signal, the LLM call environment, the outcomes of the stub calls
(`Except.error` modelling a raised exception), the sqlite insert
outcome, the wall clock and the `uuid4().hex` stream. -/
structure Env where
  inDocker : Bool
  llm : LlmEnv
  schemaOk : Except String Unit
  imageCall : Except String ORsp
  modelCall : Except String ORsp
  modelCall2 : Except String ORsp
  insertOk : Bool
  now : String
  names : Nat → String
  outputDir : String

/-- `CreativePipeline._generate_image`: fetch the schema, call the
Text-to-Image app, reject a missing or empty `result` field, then save
the bytes under a fresh `images/<uuid>.png` name.  Returns the raised
message on failure; `k` indexes the uuid stream. -/
def generate_image (env : Env) (fs : FS) (k : Nat) :
    Except String (Bytes × String) × FS × Nat :=
  match env.schemaOk with
  | Except.error e => (Except.error e, fs, k)
  | Except.ok _ =>
    match env.imageCall with
    | Except.error e => (Except.error e, fs, k)
    | Except.ok response =>
      match dget response "result" with
      | none => (Except.error "No image data in response", fs, k)
      | some image_data =>
        if image_data.isEmpty then
          (Except.error "No image data in response", fs, k)
        else
          let image_path := env.outputDir ++ "/images/" ++ env.names k ++ ".png"
          (Except.ok (image_data, image_path), fs ++ [(image_path, image_data)], k + 1)

/-- `CreativePipeline._generate_3d_model`: call the Image-to-3D app,
reject an empty response or a missing/empty `generated_object`, save
the model bytes under `models/<uuid>.glb`, then test
`response['video_object']` — bracket access, so a response without that
key raises `KeyError` (after the model file was already written).  A
present non-empty video is saved under `videos/<uuid>.mp4`. -/
def generate_3d_model (env : Env) (fs : FS) (k : Nat) :
    Except String (Bytes × String × Option String) × FS × Nat :=
  match env.modelCall with
  | Except.error e => (Except.error e, fs, k)
  | Except.ok response =>
    if response.isEmpty then
      (Except.error "Empty response from Image-to-3D service", fs, k)
    else
      match dget response "generated_object" with
      | none => (Except.error "No model data in response", fs, k)
      | some model_data =>
        if model_data.isEmpty then
          (Except.error "No model data in response", fs, k)
        else
          let fid := env.names k
          let model_path := env.outputDir ++ "/models/" ++ fid ++ ".glb"
          let fs1 := fs ++ [(model_path, model_data)]
          match dsub response "video_object" with
          | Except.error e => (Except.error e, fs1, k + 1)
          | Except.ok video_data =>
            if video_data.isEmpty then
              (Except.ok (model_data, model_path, none), fs1, k + 1)
            else
              let video_path := env.outputDir ++ "/videos/" ++ fid ++ ".mp4"
              (Except.ok (model_data, model_path, some video_path),
                fs1 ++ [(video_path, video_data)], k + 1)

/-- `CreativePipeline._generate_3d_model2` (the degraded fallback):
same call, but every exception is swallowed and `None` returned; the
`generated_object` field is returned without a truthiness check. -/
def generate_3d_model2 (env : Env) : Option Bytes :=
  match env.modelCall2 with
  | Except.error _ => none
  | Except.ok response =>
    if response.isEmpty then none
    else dget response "generated_object"

/-- The failure shape returned by the outer except handler of
`process`. -/
def errDict (e p : String) : List (String × PVal) :=
  [("error", PVal.vstr e), ("stage", PVal.vstr "pipeline_process"),
   ("original_prompt", PVal.vstr p)]

/-- The success shape built at the end of `process` (note: it carries
no `stages_completed` or `errors` key). -/
def successDict (cid : Int) (p enh : String) (ip mp : Option String)
    (tags : List String) : List (String × PVal) :=
  [("creation_id", PVal.vint cid), ("original_prompt", PVal.vstr p),
   ("enhanced_prompt", PVal.vstr enh), ("image_path", optStrVal ip),
   ("model_path", optStrVal mp), ("tags", PVal.vlist tags)]

/-- Observable outcome of one `process` run: the returned dict, the
memory manager state, the artifact store, and (for bookkeeping) the
final value of the internal result dict's `stages_completed` and
`errors` lists, which the success path discards when it rebuilds the
returned dict. -/
structure ProcOut where
  ret : List (String × PVal)
  mem : Mem
  fs : FS
  stagesTrack : List String
  errorsTrack : List String
deriving DecidableEq, Repr

/-- Stages 4-6 of `process` (lines 116-155 of generator.py): tag
extraction, the `if(video_path)`-guarded persistence (reading the
possibly-unbound local `video_path`, passed here as
`Option (Option String)` with `none` for "unbound"), the short-term
cache writes and the final success dict.  A truthy `video_path`
selects the seven-positional-argument call to `save_creation`, whose
source signature has only six parameters, so that call raises
`TypeError`; an unbound `video_path` raises `UnboundLocalError`.  Both
land in the outer except handler. -/
def finishRun (env : Env) (m : Mem) (fs : FS)
    (user_prompt enhanced_prompt user_id : String)
    (image_path model_path : Option String) (videoVar : Option (Option String))
    (stages errors : List String) : ProcOut :=
  let tags := extract_tags enhanced_prompt
  match videoVar with
  | none =>
    { ret := errDict "UnboundLocalError: video_path" user_prompt, mem := m,
      fs := fs, stagesTrack := stages, errorsTrack := errors }
  | some video_path =>
    if pyTruthyOptStr video_path then
      { ret := errDict "TypeError: save_creation takes 6 positional arguments but 7 were given"
          user_prompt,
        mem := m, fs := fs, stagesTrack := stages, errorsTrack := errors }
    else
      let idm := save_creation m env.insertOk env.now user_prompt enhanced_prompt
        image_path model_path tags user_id
      let m2 := save_to_short_term idm.2 "last_prompt" (PVal.vstr user_prompt)
      let m3 := save_to_short_term m2 "last_enhanced_prompt" (PVal.vstr enhanced_prompt)
      let m4 := save_to_short_term m3 "last_image_path" (optStrVal image_path)
      let m5 := save_to_short_term m4 "last_model_path" (optStrVal model_path)
      { ret := successDict idm.1 user_prompt enhanced_prompt image_path model_path tags,
        mem := m5, fs := fs, stagesTrack := stages, errorsTrack := errors }

/-- Stage 1 of `process`: container detection selects which of the two
enhancement entry points is called. -/
def enhanceStage (env : Env) (user_prompt : String) : Except String String :=
  if env.inDocker then enhance_prompt env.llm user_prompt
  else enhance_prompt_local env.llm user_prompt

/-- `CreativePipeline.process`: the full pipeline.  Image-generation
failures are absorbed (error recorded, `image_path = None`, the 3D
stage skipped); 3D failures trigger the single degraded fallback; the
run then proceeds to tag extraction, persistence and the session
cache.  Any exception escaping those stages is caught by the outer
handler, which returns the failure shape with stage
`pipeline_process`. -/
def process (env : Env) (m : Mem) (fs : FS) (user_prompt : String) (user_id : String) :
    ProcOut :=
  match enhanceStage env user_prompt with
  | Except.error e =>
    { ret := errDict e user_prompt, mem := m, fs := fs,
      stagesTrack := [], errorsTrack := [] }
  | Except.ok enhanced_prompt =>
    match generate_image env fs 0 with
    | (Except.error e, fs1, _) =>
      finishRun env m fs1 user_prompt enhanced_prompt user_id none none none
        [] ["Image generation failed: " ++ e,
            "Skipped 3D model generation due to missing image"]
    | (Except.ok (_, image_path), fs1, k1) =>
      if pyTruthyStr image_path then
        match generate_3d_model env fs1 k1 with
        | (Except.ok (_, model_path, video_path), fs2, _) =>
          finishRun env m fs2 user_prompt enhanced_prompt user_id
            (some image_path) (some model_path) (some video_path)
            ["image_generation", "model_generation"] []
        | (Except.error e, fs2, k2) =>
          match generate_3d_model2 env with
          | some md =>
            if md.isEmpty then
              finishRun env m fs2 user_prompt enhanced_prompt user_id
                (some image_path) none (some none)
                ["image_generation"] ["3D model generation failed: " ++ e]
            else
              let model_path := env.outputDir ++ "/models/" ++ env.names k2 ++ ".glb"
              finishRun env m (fs2 ++ [(model_path, md)]) user_prompt enhanced_prompt
                user_id (some image_path) (some model_path) (some none)
                ["image_generation", "model_generation_fallback"]
                ["3D model generation failed: " ++ e]
          | none =>
            finishRun env m fs2 user_prompt enhanced_prompt user_id
              (some image_path) none (some none)
              ["image_generation"] ["3D model generation failed: " ++ e]
      else
        finishRun env m fs1 user_prompt enhanced_prompt user_id
          (some image_path) none none
          ["image_generation"] ["Skipped 3D model generation due to missing image"]

/-- Environment of the C1 run: the LLM answers, the image call raises. -/
def c1env : Env :=
  { inDocker := true,
    llm := { post := Except.ok { status := 200, jsonResponse := some "an enhanced dragon" },
             styleIdx := 0, lightIdx := 0, detailIdx := 0 },
    schemaOk := Except.ok (),
    imageCall := Except.error "connection refused",
    modelCall := Except.error "unused", modelCall2 := Except.error "unused",
    insertOk := true, now := "2026-01-01T00:00:00",
    names := fun _ => "cafe01", outputDir := "static/outputs" }

/-- Environment of the C3 run: every stage succeeds and the 3D response
carries a non-empty video. -/
def c3env : Env :=
  { inDocker := true,
    llm := { post := Except.ok { status := 200, jsonResponse := some "an enhanced dragon" },
             styleIdx := 0, lightIdx := 0, detailIdx := 0 },
    schemaOk := Except.ok (),
    imageCall := Except.ok [("result", [1])],
    modelCall := Except.ok [("generated_object", [2]), ("video_object", [3])],
    modelCall2 := Except.error "unused",
    insertOk := true, now := "2026-01-01T00:00:00",
    names := fun _ => "cafe01", outputDir := "static/outputs" }

/-- Environment of the C5 run: image succeeds, the primary 3D call
raises, the degraded fallback returns model bytes. -/
def c5env : Env :=
  { inDocker := true,
    llm := { post := Except.ok { status := 200, jsonResponse := some "an enhanced dragon" },
             styleIdx := 0, lightIdx := 0, detailIdx := 0 },
    schemaOk := Except.ok (),
    imageCall := Except.ok [("result", [1])],
    modelCall := Except.error "service down",
    modelCall2 := Except.ok [("generated_object", [7])],
    insertOk := true, now := "2026-01-01T00:00:00",
    names := fun _ => "cafe01", outputDir := "static/outputs" }

/-- Environment of the C6 run: a clean model-only run whose sqlite
insert fails. -/
def c6env : Env :=
  { inDocker := true,
    llm := { post := Except.ok { status := 200, jsonResponse := some "an enhanced dragon" },
             styleIdx := 0, lightIdx := 0, detailIdx := 0 },
    schemaOk := Except.ok (),
    imageCall := Except.ok [("result", [1])],
    modelCall := Except.ok [("generated_object", [2]), ("video_object", [])],
    modelCall2 := Except.error "unused",
    insertOk := false, now := "2026-01-01T00:00:00",
    names := fun _ => "cafe01", outputDir := "static/outputs" }

/-- Environment of the C4 counterexample: the 3D response carries model
bytes but no `video_object` key at all. -/
def c4env : Env :=
  { inDocker := true,
    llm := { post := Except.ok { status := 200, jsonResponse := some "an enhanced dragon" },
             styleIdx := 0, lightIdx := 0, detailIdx := 0 },
    schemaOk := Except.ok (),
    imageCall := Except.ok [("result", [1])],
    modelCall := Except.ok [("generated_object", [2])],
    modelCall2 := Except.error "unused",
    insertOk := true, now := "2026-01-01T00:00:00",
    names := fun _ => "cafe01", outputDir := "static/outputs" }

/-- Boolean prefix test on character lists (exact characters). -/
def listPref : List Char → List Char → Bool
  | [], _ => true
  | _ :: _, [] => false
  | a :: l, b :: r => (a == b) && listPref l r

/-- Boolean substring-occurrence test on character lists. -/
def listSub (l r : List Char) : Bool :=
  match r with
  | [] => listPref l []
  | _ :: r2 => listPref l r || listSub l r2

/-- The stored row used by the C9 witness: the term occurs only in the
tags column. -/
def c9row : Row :=
  { id := 1, creation_date := "2026-01-01T00:00:00", prompt := "a beast",
    enhanced_prompt := "an enormous beast", image_path := none, model_path := none,
    video_path := none, tags := "majestic,dragon", user_id := "super-user" }

/-! ## Lemmas and claim theorems -/

theorem toLower_idem (c : Char) : c.toLower.toLower = c.toLower := by
  unfold Char.toLower
  by_cases h : c.toNat >= 65 ∧ c.toNat <= 90
  · simp only [h, and_self, if_pos]
    obtain ⟨h1, h2⟩ := h
    set n := c.toNat with hn
    interval_cases n <;> decide
  · simp only [if_neg h]

theorem pyWordsAux_sound (Q : Char → Prop) :
    ∀ (l acc : List Char), (∀ c ∈ l, Q c) → (∀ c ∈ acc, Q c ∧ pyIsSpace c = false) →
    ∀ w ∈ pyWordsAux l acc, w ≠ [] ∧ ∀ c ∈ w, Q c ∧ pyIsSpace c = false := by
  intro l
  induction l with
  | nil =>
    intro acc _ hacc w hw
    simp only [pyWordsAux] at hw
    by_cases he : acc.isEmpty
    · simp [he] at hw
    · simp only [he, if_neg, Bool.false_eq_true, if_false, List.mem_singleton] at hw
      subst hw
      refine ⟨?_, ?_⟩
      · simp only [ne_eq, List.reverse_eq_nil_iff]
        intro h
        simp [h] at he
      · intro c hc
        exact hacc c (List.mem_reverse.mp hc)
  | cons c cs ih =>
    intro acc hl hacc w hw
    simp only [pyWordsAux] at hw
    by_cases hs : pyIsSpace c
    · simp only [hs, if_pos] at hw
      by_cases he : acc.isEmpty
      · simp only [he, if_pos] at hw
        exact ih [] (fun d hd => hl d (List.mem_cons_of_mem _ hd)) (by simp) w hw
      · simp only [he, Bool.false_eq_true, if_false, List.mem_cons] at hw
        rcases hw with hw | hw
        · subst hw
          refine ⟨?_, ?_⟩
          · simp only [ne_eq, List.reverse_eq_nil_iff]
            intro h
            simp [h] at he
          · intro d hd
            exact hacc d (List.mem_reverse.mp hd)
        · exact ih [] (fun d hd => hl d (List.mem_cons_of_mem _ hd)) (by simp) w hw
    · simp only [hs, Bool.false_eq_true, if_false] at hw
      refine ih (c :: acc) (fun d hd => hl d (List.mem_cons_of_mem _ hd)) ?_ w hw
      intro d hd
      rcases List.mem_cons.mp hd with hd | hd
      · subst hd
        exact ⟨hl d (List.mem_cons_self _ _), by simpa using hs⟩
      · exact hacc d hd

theorem extract_tags_mem {p t : String} (h : t ∈ extract_tags p) :
    3 < t.length ∧ t ∉ stopwords ∧ t ≠ "" ∧
    ∀ c ∈ t.data, pyIsSpace c = false ∧ c ≠ ',' ∧ c.toLower = c := by
  simp only [extract_tags] at h
  have h1 := List.mem_dedup.mp (List.mem_of_mem_take h)
  have h2 := List.mem_filter.mp h1
  obtain ⟨hmem, hpred⟩ := h2
  have hlen : 3 < t.length ∧ t ∉ stopwords := by
    simpa using hpred
  obtain ⟨w, hw, hwt⟩ := List.mem_map.mp hmem
  have hsound := pyWordsAux_sound (fun c => c ≠ ',' ∧ c.toLower = c)
    ((p.data.map Char.toLower).map (fun c => if c = ',' then ' ' else c)) []
    ?_ (by simp) w hw
  · obtain ⟨hne, hchars⟩ := hsound
    refine ⟨hlen.1, hlen.2, ?_, ?_⟩
    · intro habs
      apply hne
      have := congrArg String.data (hwt.trans habs)
      simpa using this
    · intro c hc
      have hcw : c ∈ w := by
        have : t.data = w := by
          rw [← hwt]
        rwa [this] at hc
      obtain ⟨⟨hc1, hc2⟩, hc3⟩ := hchars c hcw
      exact ⟨hc3, hc1, hc2⟩
  · intro c hc
    obtain ⟨a, ha, hac⟩ := List.mem_map.mp hc
    obtain ⟨b, _, hba⟩ := List.mem_map.mp ha
    by_cases hcomma : a = ','
    · subst hac
      simp only [hcomma, if_pos]
      exact ⟨by decide, by decide⟩
    · subst hac
      simp only [hcomma, if_neg, if_false]
      subst hba
      exact ⟨by simpa using hcomma, toLower_idem b⟩

theorem extract_tags_nodup (p : String) : (extract_tags p).Nodup := by
  simp only [extract_tags]
  exact List.Nodup.sublist (List.take_sublist _ _) (List.nodup_dedup _)

theorem extract_tags_len_le (p : String) : (extract_tags p).length ≤ 10 := by
  simp only [extract_tags]
  simp [List.length_take]

theorem splitCommaChars_no_comma : ∀ (w : List Char), ',' ∉ w → splitCommaChars w = [w] := by
  intro w
  induction w with
  | nil => intro _; rfl
  | cons c cs ih =>
    intro h
    have hc : c ≠ ',' := fun habs => h (habs ▸ List.mem_cons_self _ _)
    have hcs : ',' ∉ cs := fun habs => h (List.mem_cons_of_mem _ habs)
    simp [splitCommaChars, ih hcs, hc]

theorem splitCommaChars_append : ∀ (w r : List Char), ',' ∉ w →
    splitCommaChars (w ++ ',' :: r) = w :: splitCommaChars r := by
  intro w
  induction w with
  | nil =>
    intro r _
    simp [splitCommaChars]
  | cons c cs ih =>
    intro r h
    have hc : c ≠ ',' := fun habs => h (habs ▸ List.mem_cons_self _ _)
    have hcs : ',' ∉ cs := fun habs => h (List.mem_cons_of_mem _ habs)
    simp [splitCommaChars, ih r hcs, hc]

theorem pySplit_pyJoin : ∀ (l : List String), l ≠ [] → (∀ s ∈ l, ',' ∉ s.data) →
    pySplitComma (pyJoin "," l) = l := by
  intro l
  induction l with
  | nil => intro h; exact absurd rfl h
  | cons x xs ih =>
    intro _ hcf
    match xs with
    | [] =>
      simp only [pyJoin, pySplitComma]
      rw [splitCommaChars_no_comma x.data (hcf x (List.mem_cons_self _ _))]
      rfl
    | y :: t =>
      have hx : ',' ∉ x.data := hcf x (List.mem_cons_self _ _)
      have hdata : (x ++ "," ++ pyJoin "," (y :: t)).data
          = x.data ++ ',' :: (pyJoin "," (y :: t)).data := by
        simp [String.data_append]
      simp only [pyJoin, pySplitComma, hdata]
      rw [splitCommaChars_append x.data _ hx]
      have hih := ih (by simp) (fun s hs => hcf s (List.mem_cons_of_mem _ hs))
      simp only [pySplitComma] at hih
      simp [hih]

/-- C7: tags from the dragon prompt contain the six expected words, and
for every prompt the extracted tags are deduplicated, capped at ten,
and exclude words of length at most three and the stopwords. -/
theorem c7_tag_extraction_bounds :
    (∀ w ∈ (["majestic", "dragon", "glowing", "scales", "golden", "hour"] : List String),
      w ∈ extract_tags "A Majestic Dragon, Glowing Scales, Golden Hour")
    ∧ ∀ p : String, (extract_tags p).Nodup ∧ (extract_tags p).length ≤ 10 ∧
        ∀ t ∈ extract_tags p, 3 < t.length ∧ t ∉ stopwords := by
  refine ⟨by decide, ?_⟩
  intro p
  refine ⟨extract_tags_nodup p, extract_tags_len_le p, ?_⟩
  intro t ht
  obtain ⟨h1, h2, _, _⟩ := extract_tags_mem ht
  exact ⟨h1, h2⟩

/-- Witness for C7 at the concrete prompt of the claim. -/
theorem c7_tag_extraction_bounds_w :
    "majestic" ∈ extract_tags "A Majestic Dragon, Glowing Scales, Golden Hour" :=
  c7_tag_extraction_bounds.1 "majestic" (by decide)

/-- C10 counterexample: a prompt whose words are all short or stopwords
yields an empty tag list; `save_creation` stores `""` for it, and
splitting `""` on commas yields `[""]`, not the original empty list, so
the round-trip claim fails as stated. -/
theorem c10_empty_tags_split_cex :
    extract_tags "a the on" = []
    ∧ pySplitComma (tagsStr (extract_tags "a the on")) = [""]
    ∧ pySplitComma (tagsStr (extract_tags "a the on")) ≠ extract_tags "a the on" := by
  refine ⟨by decide, by decide, by decide⟩

/-- C10 amended: every extracted tag is a lowercase word of length at
least four without commas or whitespace, and for every prompt with a
nonempty tag list the stored comma-joined string splits back into
exactly the original tag list. -/
theorem c10_tag_chars_and_roundtrip (p : String) :
    (∀ t ∈ extract_tags p, 4 ≤ t.length ∧
      ∀ c ∈ t.data, c ≠ ',' ∧ pyIsSpace c = false ∧ c.toLower = c)
    ∧ (extract_tags p ≠ [] → pySplitComma (tagsStr (extract_tags p)) = extract_tags p) := by
  constructor
  · intro t ht
    obtain ⟨h1, _, _, h4⟩ := extract_tags_mem ht
    refine ⟨by omega, ?_⟩
    intro c hc
    obtain ⟨hs, hcm, hl⟩ := h4 c hc
    exact ⟨hcm, hs, hl⟩
  · intro hne
    have hcf : ∀ s ∈ extract_tags p, ',' ∉ s.data := by
      intro s hs habs
      obtain ⟨_, _, _, h4⟩ := extract_tags_mem hs
      exact (h4 ',' habs).2.1 rfl
    have hjoin : tagsStr (extract_tags p) = pyJoin "," (extract_tags p) := by
      simp only [tagsStr]
      rw [if_neg]
      simpa using hne
    rw [hjoin]
    exact pySplit_pyJoin (extract_tags p) hne hcf

/-- Witness for C10 at the dragon prompt. -/
theorem c10_tag_chars_and_roundtrip_w :
    pySplitComma (tagsStr (extract_tags "A Majestic Dragon, Glowing Scales, Golden Hour"))
      = extract_tags "A Majestic Dragon, Glowing Scales, Golden Hour" :=
  (c10_tag_chars_and_roundtrip "A Majestic Dragon, Glowing Scales, Golden Hour").2 (by decide)

/-- C8: the local fallback enhancement is exactly the comma-joined
template over one of the four art styles, four lighting descriptors and
four detail descriptors. -/
theorem c8_fallback_prompt_shape (env : LlmEnv) (p : String) :
    ∃ s ∈ art_styles, ∃ l ∈ lighting_opts, ∃ d ∈ detail_opts,
      create_enhanced_prompt_fallback env p =
        p ++ ", " ++ s ++ ", " ++ l ++ ", " ++ d ++ ", masterfully crafted, 8k resolution" := by
  have hs : ∀ i : Fin 4, art_styles.getD i.val "" ∈ art_styles := by decide
  have hl : ∀ i : Fin 4, lighting_opts.getD i.val "" ∈ lighting_opts := by decide
  have hd : ∀ i : Fin 4, detail_opts.getD i.val "" ∈ detail_opts := by decide
  exact ⟨_, hs env.styleIdx, _, hl env.lightIdx, _, hd env.detailIdx, rfl⟩

/-- C2 counterexample: a transport failure from `requests.post` (for
example a connection error when the backend is unreachable) propagates
out of `enhance_prompt` instead of producing the local fallback. -/
theorem c2_transport_failure_propagates :
    enhance_prompt
      { post := Except.error "ConnectionError: backend unreachable",
        styleIdx := 0, lightIdx := 0, detailIdx := 0 } "a cat"
      = Except.error "ConnectionError: backend unreachable"
    ∧ enhance_prompt_local
      { post := Except.error "ConnectionError: backend unreachable",
        styleIdx := 0, lightIdx := 0, detailIdx := 0 } "a cat"
      = Except.error "ConnectionError: backend unreachable" :=
  ⟨rfl, rfl⟩

/-- C2 amended: whenever `requests.post` returns (no transport
exception) with a non-200 status, both enhancement entry points return
the locally fabricated fallback, which is non-empty; a transport
failure, however, propagates to the caller. -/
theorem c2_non200_falls_back_locally (env : LlmEnv) (p : String) (r : HttpResp)
    (hpost : env.post = Except.ok r) (hstatus : r.status ≠ 200) :
    enhance_prompt env p = Except.ok (create_enhanced_prompt_fallback env p)
    ∧ enhance_prompt_local env p = Except.ok (create_enhanced_prompt_fallback env p)
    ∧ create_enhanced_prompt_fallback env p ≠ "" := by
  have hs : (r.status == 200) = false := by simpa using hstatus
  refine ⟨?_, ?_, ?_⟩
  · simp [enhance_prompt, hpost, hs]
  · simp [enhance_prompt_local, hpost, hs]
  · intro habs
    have hlen := congrArg String.length habs
    have hsuffix : (", masterfully crafted, 8k resolution" : String).length = 36 := rfl
    simp [create_enhanced_prompt_fallback, String.length_append, hsuffix] at hlen

/-- Witness for C2 at a concrete 500 response. -/
theorem c2_non200_falls_back_locally_w :
    enhance_prompt
      { post := Except.ok { status := 500, jsonResponse := none },
        styleIdx := 1, lightIdx := 2, detailIdx := 3 } "a cat"
      = Except.ok (create_enhanced_prompt_fallback
          { post := Except.ok { status := 500, jsonResponse := none },
            styleIdx := 1, lightIdx := 2, detailIdx := 3 } "a cat")
    ∧ enhance_prompt_local
      { post := Except.ok { status := 500, jsonResponse := none },
        styleIdx := 1, lightIdx := 2, detailIdx := 3 } "a cat"
      = Except.ok (create_enhanced_prompt_fallback
          { post := Except.ok { status := 500, jsonResponse := none },
            styleIdx := 1, lightIdx := 2, detailIdx := 3 } "a cat")
    ∧ create_enhanced_prompt_fallback
        { post := Except.ok { status := 500, jsonResponse := none },
          styleIdx := 1, lightIdx := 2, detailIdx := 3 } "a cat" ≠ "" :=
  c2_non200_falls_back_locally _ "a cat" { status := 500, jsonResponse := none } rfl (by decide)

theorem pyTruthyStr_append_of_ne (a b : String) (hb : b.length ≠ 0) :
    pyTruthyStr (a ++ b) = true := by
  have hne : a ++ b ≠ "" := by
    intro h
    have hlen := congrArg String.length h
    rw [String.length_append] at hlen
    have h0 : ("" : String).length = 0 := rfl
    omega
  simp [pyTruthyStr, hne]

theorem pget_successDict_model_path (cid : Int) (p e : String) (ip mp : Option String)
    (tags : List String) :
    pget (successDict cid p e ip mp tags) "model_path" = some (optStrVal mp) := rfl

theorem pget_successDict_creation_id (cid : Int) (p e : String) (ip mp : Option String)
    (tags : List String) :
    pget (successDict cid p e ip mp tags) "creation_id" = some (PVal.vint cid) := rfl

theorem pget_successDict_error (cid : Int) (p e : String) (ip mp : Option String)
    (tags : List String) :
    pget (successDict cid p e ip mp tags) "error" = none := rfl

theorem pget_successDict_stages (cid : Int) (p e : String) (ip mp : Option String)
    (tags : List String) :
    pget (successDict cid p e ip mp tags) "stages_completed" = none := rfl

/-- C1: when image generation raises, the run does record the error and
skip 3D generation, but then reading the never-assigned local
`video_path` raises `UnboundLocalError`, so the outer handler returns
the terminal-error shape and neither persistence nor the session-cache
update happens; the claimed behaviour is what the surrounding code
clearly intends. -/
theorem c1_image_failure_unbound_video_path :
    (process c1env initMem [] "a dragon" "super-user").ret
        = errDict "UnboundLocalError: video_path" "a dragon"
    ∧ (process c1env initMem [] "a dragon" "super-user").mem = initMem
    ∧ (process c1env initMem [] "a dragon" "super-user").errorsTrack
        = ["Image generation failed: connection refused",
           "Skipped 3D model generation due to missing image"] :=
  ⟨by decide, rfl, by decide⟩

/-- C3: when the 3D stage produced a video, the video branch calls
`save_creation` with seven positional arguments while its signature
takes six, so `TypeError` is raised, the outer handler returns the
terminal-error shape and no CreationRecord is persisted. -/
theorem c3_video_persistence_raises_type_error :
    (process c3env initMem [] "a dragon" "super-user").ret
        = errDict "TypeError: save_creation takes 6 positional arguments but 7 were given"
            "a dragon"
    ∧ (process c3env initMem [] "a dragon" "super-user").mem.db.rows = [] :=
  ⟨by decide, rfl⟩

/-- C5 counterexample: on the fallback-success run the value `process`
returns is the rebuilt success dict, which carries no
`stages_completed` key at all (while its `model_path` is set), so the
returned value cannot mark the stage as a fallback success. -/
theorem c5_returned_dict_lacks_stages_completed :
    pget (process c5env initMem [] "a dragon" "super-user").ret "stages_completed" = none
    ∧ pget (process c5env initMem [] "a dragon" "super-user").ret "model_path"
        = some (PVal.vstr "static/outputs/models/cafe01.glb") :=
  ⟨rfl, rfl⟩

/-- C5 amended: if the primary 3D attempt raises and the fallback
returns model bytes, the returned dict's `model_path` is the freshly
written non-null model file and the internal `stages_completed`
tracking records `model_generation_fallback`; that tracking list is,
however, discarded when the success dict is rebuilt and is not part of
the returned value. -/
theorem c5_fallback_success_model_path (env : Env) (m : Mem) (fs : FS)
    (p u enh : String) (r r2 : ORsp) (b md : Bytes) (err : String)
    (h1 : enhanceStage env p = Except.ok enh)
    (h2 : env.schemaOk = Except.ok ())
    (h3 : env.imageCall = Except.ok r)
    (h4 : dget r "result" = some b)
    (h5 : b.isEmpty = false)
    (h6 : env.modelCall = Except.error err)
    (h7 : env.modelCall2 = Except.ok r2)
    (h8 : r2.isEmpty = false)
    (h9 : dget r2 "generated_object" = some md)
    (h10 : md.isEmpty = false) :
    pget (process env m fs p u).ret "model_path"
        = some (PVal.vstr (env.outputDir ++ "/models/" ++ env.names 1 ++ ".glb"))
    ∧ "model_generation_fallback" ∈ (process env m fs p u).stagesTrack := by
  have htr : pyTruthyStr (env.outputDir ++ "/images/" ++ env.names 0 ++ ".png") = true :=
    pyTruthyStr_append_of_ne _ ".png" (by decide)
  simp only [process, h1, generate_image, h2, h3, h4, h5, Bool.false_eq_true, if_false,
    htr, if_true, generate_3d_model, h6, generate_3d_model2, h7, h8, h9, h10,
    finishRun, pyTruthyOptStr, Bool.false_eq_true]
  simp [pget_successDict_model_path, optStrVal]

/-- Witness for C5 at the concrete fallback-success environment. -/
theorem c5_fallback_success_model_path_w :
    pget (process c5env initMem [] "a dragon" "super-user").ret "model_path"
        = some (PVal.vstr (c5env.outputDir ++ "/models/" ++ c5env.names 1 ++ ".glb"))
    ∧ "model_generation_fallback" ∈ (process c5env initMem [] "a dragon" "super-user").stagesTrack :=
  c5_fallback_success_model_path c5env initMem [] "a dragon" "super-user"
    "an enhanced dragon" [("result", [1])] [("generated_object", [7])] [1] [7] "service down"
    rfl rfl rfl rfl rfl rfl rfl rfl rfl rfl

/-- C6 counterexample: when the ledger insert fails, `save_creation`
catches the error and returns `-1`; `process` then still updates the
session cache and returns the success shape with `creation_id = -1`
instead of the claimed terminal-error shape. -/
theorem c6_insert_failure_not_fatal :
    pget (process c6env initMem [] "a dragon" "super-user").ret "creation_id"
        = some (PVal.vint (-1))
    ∧ pget (process c6env initMem [] "a dragon" "super-user").ret "error" = none
    ∧ get_from_short_term (process c6env initMem [] "a dragon" "super-user").mem "last_prompt"
        = some (PVal.vstr "a dragon") :=
  ⟨rfl, rfl, rfl⟩

/-- C6 amended: a failing ledger insert writes no row (that much of the
claim holds), but it is not fatal: `save_creation` absorbs the
exception and returns `-1`, the session cache is still updated, and
`process` returns the success shape carrying `creation_id = -1` rather
than the terminal-error shape. -/
theorem c6_insert_failure_absorbed (env : Env) (m : Mem) (fs : FS)
    (p u enh : String) (r r3 : ORsp) (b md : Bytes)
    (h1 : enhanceStage env p = Except.ok enh)
    (h2 : env.schemaOk = Except.ok ())
    (h3 : env.imageCall = Except.ok r)
    (h4 : dget r "result" = some b)
    (h5 : b.isEmpty = false)
    (h6 : env.modelCall = Except.ok r3)
    (h7 : r3.isEmpty = false)
    (h8 : dget r3 "generated_object" = some md)
    (h9 : md.isEmpty = false)
    (h10 : dget r3 "video_object" = some [])
    (h11 : env.insertOk = false) :
    (process env m fs p u).mem.db.rows = m.db.rows
    ∧ pget (process env m fs p u).ret "creation_id" = some (PVal.vint (-1))
    ∧ pget (process env m fs p u).ret "error" = none
    ∧ get_from_short_term (process env m fs p u).mem "last_prompt" = some (PVal.vstr p) := by
  have htr : pyTruthyStr (env.outputDir ++ "/images/" ++ env.names 0 ++ ".png") = true :=
    pyTruthyStr_append_of_ne _ ".png" (by decide)
  simp only [process, h1, generate_image, h2, h3, h4, h5, Bool.false_eq_true, if_false,
    htr, if_true, generate_3d_model, h6, h7, h8, h9, dsub, h10, List.isEmpty_nil,
    if_true, finishRun, pyTruthyOptStr, save_creation, h11, save_to_short_term]
  refine ⟨trivial, ?_, ?_, ?_⟩
  · simp [pget_successDict_creation_id]
  · simp [pget_successDict_error]
  · simp [get_from_short_term, List.find?]

/-- Witness for C6 at the concrete failing-insert environment. -/
theorem c6_insert_failure_absorbed_w :
    (process c6env initMem [] "a dragon" "super-user").mem.db.rows = initMem.db.rows
    ∧ pget (process c6env initMem [] "a dragon" "super-user").ret "creation_id"
        = some (PVal.vint (-1))
    ∧ pget (process c6env initMem [] "a dragon" "super-user").ret "error" = none
    ∧ get_from_short_term (process c6env initMem [] "a dragon" "super-user").mem "last_prompt"
        = some (PVal.vstr "a dragon") :=
  c6_insert_failure_absorbed c6env initMem [] "a dragon" "super-user"
    "an enhanced dragon" [("result", [1])] [("generated_object", [2]), ("video_object", [])]
    [1] [2] rfl rfl rfl rfl rfl rfl rfl rfl rfl rfl rfl

/-- C4 counterexample: with the optional video field absent,
`_generate_3d_model` does not route through the model-only branch — the
bracket access `response['video_object']` raises `KeyError` (after the
model file was already written), so the function fails. -/
theorem c4_missing_video_key_raises :
    (generate_3d_model c4env [] 0).1 = Except.error "KeyError: video_object"
    ∧ (generate_3d_model c4env [] 0).2.1 = [("static/outputs/models/cafe01.glb", [2])] :=
  ⟨rfl, rfl⟩

/-- C4 amended: given model bytes under `generated_object`, the model
file is always persisted to a fresh `models/<uuid>.glb` name; a present
but empty video field routes through the model-only branch with a null
video path, a present non-empty video field persists the video and
returns its path, but an absent video field raises `KeyError` (the
caller then falls into the degraded-fallback path of `process`). -/
theorem c4_model_video_routing (env : Env) (fs : FS) (k : Nat) (r : ORsp) (md : Bytes)
    (h1 : env.modelCall = Except.ok r)
    (h2 : r.isEmpty = false)
    (h3 : dget r "generated_object" = some md)
    (h4 : md.isEmpty = false) :
    (dget r "video_object" = some [] →
      generate_3d_model env fs k =
        (Except.ok (md, env.outputDir ++ "/models/" ++ env.names k ++ ".glb", none),
         fs ++ [(env.outputDir ++ "/models/" ++ env.names k ++ ".glb", md)], k + 1))
    ∧ (dget r "video_object" = none →
      generate_3d_model env fs k =
        (Except.error "KeyError: video_object",
         fs ++ [(env.outputDir ++ "/models/" ++ env.names k ++ ".glb", md)], k + 1))
    ∧ (∀ vb : Bytes, dget r "video_object" = some vb → vb.isEmpty = false →
      generate_3d_model env fs k =
        (Except.ok (md, env.outputDir ++ "/models/" ++ env.names k ++ ".glb",
            some (env.outputDir ++ "/videos/" ++ env.names k ++ ".mp4")),
         fs ++ [(env.outputDir ++ "/models/" ++ env.names k ++ ".glb", md),
                (env.outputDir ++ "/videos/" ++ env.names k ++ ".mp4", vb)], k + 1)) := by
  refine ⟨?_, ?_, ?_⟩
  · intro hv
    simp [generate_3d_model, h1, h2, h3, h4, dsub, hv]
  · intro hv
    simp [generate_3d_model, h1, h2, h3, h4, dsub, hv]
  · intro vb hv hvb
    simp [generate_3d_model, h1, h2, h3, h4, dsub, hv, hvb]

/-- Witness for C4 at a concrete response carrying both model and
non-empty video bytes. -/
theorem c4_model_video_routing_w :
    generate_3d_model
      { c4env with modelCall := Except.ok [("generated_object", [2]), ("video_object", [3])] }
      [] 0 =
      (Except.ok ([2], "static/outputs/models/cafe01.glb",
          some "static/outputs/videos/cafe01.mp4"),
       [("static/outputs/models/cafe01.glb", [2]),
        ("static/outputs/videos/cafe01.mp4", [3])], 1) := by
  have h := (c4_model_video_routing
    { c4env with modelCall := Except.ok [("generated_object", [2]), ("video_object", [3])] }
    [] 0 [("generated_object", [2]), ("video_object", [3])] [2]
    rfl rfl rfl rfl).2.2 [3] rfl rfl
  simpa using h

theorem listPref_map (f : Char → Char) :
    ∀ (a b : List Char), listPref a b = true → listPref (a.map f) (b.map f) = true := by
  intro a
  induction a with
  | nil => intro b _; rfl
  | cons c l ih =>
    intro b h
    match b with
    | [] => simp [listPref] at h
    | d :: r =>
      simp only [listPref, Bool.and_eq_true, beq_iff_eq] at h
      simp only [List.map_cons, listPref, Bool.and_eq_true, beq_iff_eq]
      exact ⟨by rw [h.1], ih r h.2⟩

theorem listSub_map (f : Char → Char) :
    ∀ (b a : List Char), listSub a b = true → listSub (a.map f) (b.map f) = true := by
  intro b
  induction b with
  | nil =>
    intro a h
    simp only [listSub] at h ⊢
    match a with
    | [] => rfl
    | c :: l => simp [listPref] at h
  | cons d r ih =>
    intro a h
    simp only [listSub, Bool.or_eq_true] at h
    rcases h with h | h
    · simp only [List.map_cons, listSub, Bool.or_eq_true]
      exact Or.inl (by simpa using listPref_map f a (d :: r) h)
    · simp only [List.map_cons, listSub, Bool.or_eq_true]
      exact Or.inr (ih a h)

theorem nil_mem_tails : ∀ (l : List Char), [] ∈ l.tails := by
  intro l
  induction l with
  | nil => simp
  | cons c cs ih => simp [List.tails_cons, ih]

theorem self_mem_tails (l : List Char) : l ∈ l.tails := by
  match l with
  | [] => simp
  | c :: cs => simp [List.tails_cons]

theorem likeMatch_of_listPref :
    ∀ (a b : List Char),
      listPref (a.map Char.toLower) (b.map Char.toLower) = true →
      likeMatch (a ++ ['%']) b = true := by
  intro a
  induction a with
  | nil =>
    intro b _
    simp only [List.nil_append, likeMatch, if_pos]
    exact List.any_eq_true.mpr ⟨[], nil_mem_tails b, by simp [likeMatch]⟩
  | cons c a2 ih =>
    intro b h
    match b with
    | [] => simp [listPref] at h
    | d :: b2 =>
      simp only [List.map_cons, listPref, Bool.and_eq_true, beq_iff_eq] at h
      obtain ⟨hcd, hrest⟩ := h
      by_cases hc : c = '%'
      · simp only [List.cons_append, likeMatch, hc, if_pos]
        exact List.any_eq_true.mpr
          ⟨b2, by simp [List.tails_cons, self_mem_tails], ih b2 hrest⟩
      · by_cases hc2 : c = '_'
        · simp only [List.cons_append, likeMatch, hc, hc2, if_neg, if_pos,
            Bool.false_eq_true, if_false]
          exact ih b2 hrest
        · simp only [List.cons_append, likeMatch, hc, hc2, if_neg, Bool.false_eq_true,
            if_false, Bool.and_eq_true, beq_iff_eq]
          exact ⟨hcd, ih b2 hrest⟩

theorem likeMatch_of_listSub :
    ∀ (b a : List Char),
      listSub (a.map Char.toLower) (b.map Char.toLower) = true →
      likeMatch ('%' :: (a ++ ['%'])) b = true := by
  intro b
  induction b with
  | nil =>
    intro a h
    simp only [List.map_nil, listSub] at h
    match a with
    | [] => decide
    | c :: l => simp [listPref] at h
  | cons d b2 ih =>
    intro a h
    simp only [List.map_cons, listSub, Bool.or_eq_true] at h
    simp only [likeMatch, if_pos]
    rcases h with h | h
    · have hm : likeMatch (a ++ ['%']) (d :: b2) = true :=
        likeMatch_of_listPref a (d :: b2) (by simpa using h)
      exact List.any_eq_true.mpr ⟨d :: b2, self_mem_tails _, hm⟩
    · have hm := ih a h
      simp only [likeMatch, if_pos] at hm
      obtain ⟨x, hx, hfx⟩ := List.any_eq_true.mp hm
      exact List.any_eq_true.mpr ⟨x, by rw [List.tails_cons]; exact List.mem_cons_of_mem _ hx, hfx⟩

/-- C9: a record whose tags column contains the search term as a
substring (literally, or after ASCII case folding in any of the three
searched columns) is returned by `search_creations`, subject only to
the optional truthy user filter. -/
theorem c9_search_matches_tags_substring (m : Mem) (term : String) (uid : Option String)
    (r : Row) (hr : r ∈ m.db.rows)
    (huid : ∀ u, uid = some u → u ≠ "" → r.user_id = u)
    (hmatch : listSub term.data r.tags.data = true
      ∨ listSub (term.data.map Char.toLower) (r.prompt.data.map Char.toLower) = true
      ∨ listSub (term.data.map Char.toLower) (r.enhanced_prompt.data.map Char.toLower) = true
      ∨ listSub (term.data.map Char.toLower) (r.tags.data.map Char.toLower) = true) :
    r ∈ search_creations m term uid := by
  have hlike : (likeContains term r.prompt
      || likeContains term r.enhanced_prompt
      || likeContains term r.tags) = true := by
    rcases hmatch with h | h | h | h
    · have := likeMatch_of_listSub r.tags.data term.data
        (listSub_map Char.toLower r.tags.data term.data h)
      simp [likeContains, this]
    · have := likeMatch_of_listSub r.prompt.data term.data h
      simp [likeContains, this]
    · have := likeMatch_of_listSub r.enhanced_prompt.data term.data h
      simp [likeContains, this]
    · have := likeMatch_of_listSub r.tags.data term.data h
      simp [likeContains, this]
  refine List.mem_filter.mpr ⟨hr, ?_⟩
  simp only [Bool.and_eq_true]
  refine ⟨hlike, ?_⟩
  rcases uid with _ | u
  · rfl
  · by_cases hu : u = ""
    · simp [hu]
    · simp [hu]
      exact huid u rfl hu

/-- Witness for C9: searching for `drag`, present only in the tags
column, returns the record. -/
theorem c9_search_matches_tags_substring_w :
    c9row ∈ search_creations
      { db := { rows := [c9row], nextId := 2 }, shortTerm := [] } "drag" none :=
  c9_search_matches_tags_substring
    { db := { rows := [c9row], nextId := 2 }, shortTerm := [] } "drag" none c9row
    (by decide) (fun u h _ => by cases h) (Or.inl (by decide))

